import Mathlib

/-!
Shallow embedding of the news-scraper pipeline
(`src/scraper.py`, `src/config.py`, `src/ai_digest.py`, `src/news_digest.py`).

Python strings are modelled as `String` where only whole-value behaviour
matters, and as `List Char` where the code slices, splits or strips text.
Fallible external calls (the document store, the summarization service)
are modelled as `Except Unit` results supplied by an oracle parameter.

The file is organised as: all definitions first, then all lemmas and
theorems.
-/

namespace NewsScraper

/-! ## Generic text helpers (Python string primitives) -/

/-- The whitespace characters recognised by Python's `str.strip()`. -/
def isPyWhitespace (c : Char) : Bool :=
  c = ' ' || c = '\t' || c = '\n' || c = '\x0d' || c = '\x0b' || c = '\x0c'

/-- `str.strip()`: drop leading and trailing whitespace. -/
def stripChars (cs : List Char) : List Char :=
  ((cs.dropWhile isPyWhitespace).reverse.dropWhile isPyWhitespace).reverse

/-- Python `s.split(sep)` for a two-character separator `[c1, c2]`:
leftmost, non-overlapping occurrences of the separator cut the string. -/
def splitOnTwo (c1 c2 : Char) : List Char → List (List Char)
  | [] => [[]]
  | [c] => [[c]]
  | a :: b :: rest =>
    if a = c1 && b = c2 then
      [] :: splitOnTwo c1 c2 rest
    else
      match splitOnTwo c1 c2 (b :: rest) with
      | [] => [[a]]
      | s :: ss => (a :: s) :: ss

/-- Python `sep.join(pieces)` for a two-character separator. -/
def joinWithTwo (c1 c2 : Char) : List (List Char) → List Char
  | [] => []
  | [s] => s
  | s :: rest => s ++ c1 :: c2 :: joinWithTwo c1 c2 rest

/-- Python `sep.join(pieces)` for a one-character separator. -/
def joinWithOne (c : Char) : List (List Char) → List Char
  | [] => []
  | [s] => s
  | s :: rest => s ++ c :: joinWithOne c rest

/-- Python `s[:n]` on a string value. -/
def takeStr (n : Nat) (s : String) : String :=
  String.mk (s.toList.take n)

/-- Python `s.strip()` on a string value. -/
def stripStr (s : String) : String :=
  String.mk (stripChars s.toList)

/-! ## `src/config.py` -/

/-- `config.MAX_ARTICLES_PER_SOURCE` (src/config.py line 7). -/
def MAX_ARTICLES_PER_SOURCE : Nat := 10

/-! ## `src/scraper.py` — FeedNormalizer and DeduplicationGate

A raw feedparser entry.  `title`, `link`, `summaryText` model
`entry.get('title', …)`, `entry.get('link', '')` and
`entry.get('summary', '')` after BeautifulSoup markup stripping (the
HTML parsing itself is an external collaborator).  `publishedParsed`
is the result of the permissive `dateutil` parse of `entry.published`:
`none` both when the field is missing and when the parse raised. -/
structure RawEntry where
  title : Option String
  link : Option String
  publishedParsed : Option String
  summaryText : String

/-- The canonical Article record built by the normalizer
(src/scraper.py lines 62-70). -/
structure Article where
  title : String
  url : String
  category : String
  published_date : Option String
  summary : String
deriving DecidableEq, Repr

/-- The body of the loop in `parse_rss_feed`: one raw entry becomes one
Article dict (src/scraper.py lines 62-70). -/
def normalizeEntry (category : String) (e : RawEntry) : Article :=
  { title := takeStr 2000 (e.title.getD "No Title")
    url := e.link.getD ""
    category := category
    published_date := e.publishedParsed
    summary := takeStr 2000 e.summaryText }

/-- `NotionNewsAggregator.parse_rss_feed` (src/scraper.py lines 46-75):
iterate over `feed.entries[:config.MAX_ARTICLES_PER_SOURCE]` and append
every normalized entry.  Fetching and feedparser are external; the
entries list is the input. -/
def parse_rss_feed (entries : List RawEntry) (category : String) : List Article :=
  (entries.take MAX_ARTICLES_PER_SOURCE).map (normalizeEntry category)

/-- A duplicate-check query against the store either fails (network or
store error, modelled as `Except.error ()`) or returns the list of
matching result pages (their content is irrelevant to the gate). -/
def StoreQuery : Type := String → Except Unit (List Unit)

/-- `NotionNewsAggregator.article_exists` (src/scraper.py lines 31-44):
query the store for pages whose URL property equals `url`; report
`len(response["results"]) > 0`; on any exception print and return
`False`. -/
def article_exists (store : StoreQuery) (url : String) : Bool :=
  match store url with
  | Except.ok results => results.length > 0
  | Except.error _ => false

/-- A Notion property value as built by the scraper. -/
inductive PropValue where
  | titleV (s : String)
  | urlV (s : String)
  | selectV (s : String)
  | dateV (s : String)
  | richTextV (s : String)
deriving DecidableEq, Repr

/-- The `properties` dict assembled by `create_notion_page`
(src/scraper.py lines 84-112), in insertion order; `now` is
`datetime.now(timezone.utc).isoformat()`. -/
def createProperties (a : Article) (now : String) : List (String × PropValue) :=
  [("Title", PropValue.titleV a.title),
   ("URL", PropValue.urlV a.url),
   ("Source", PropValue.selectV a.category),
   ("Scraped Date", PropValue.dateV now),
   ("Read Status", PropValue.selectV "Unread")]
  ++ (match a.published_date with
      | some d => [("Published Date", PropValue.dateV d)]
      | none => [])
  ++ (if a.summary ≠ "" then [("Summary", PropValue.richTextV a.summary)] else [])

/-- `NotionNewsAggregator.create_notion_page` (src/scraper.py lines
77-117): skip (return `none`) when `article_exists` reports true,
otherwise write a page with `createProperties` (returned as `some`). -/
def create_notion_page (store : StoreQuery) (a : Article) (now : String) :
    Option (List (String × PropValue)) :=
  if article_exists store a.url then none
  else some (createProperties a now)

/-! ## `src/ai_digest.py` — paragraph splitting in `create_digest_page`

Lines 281-306: a summary paragraph longer than 1900 characters is split
on `'. '` into sentences, which are greedily re-accumulated into a
buffer `current`; the buffer is flushed (stripped) as a paragraph block
whenever adding the next sentence would reach 1900 characters. -/

/-- The sentence-accumulation loop of `create_digest_page`
(src/ai_digest.py lines 284-306), over the sentence list and the
running buffer `current`. -/
def splitLoop : List (List Char) → List Char → List (List Char)
  | [], current => if current = [] then [] else [stripChars current]
  | sent :: rest, current =>
    if current.length + sent.length + 2 < 1900 then
      splitLoop rest (current ++ sent ++ ['.', ' '])
    else
      (if current = [] then [] else [stripChars current]) ++
        splitLoop rest (sent ++ ['.', ' '])

/-- The per-paragraph branch of `create_digest_page` (src/ai_digest.py
lines 283-314): paragraphs over 1900 characters go through the sentence
splitter, shorter ones are emitted whole. -/
def paragraphBlocksText (para : List Char) : List (List Char) :=
  if para.length > 1900 then splitLoop (splitOnTwo '.' ' ' para) [] else [para]

/-- A piece of text that does not begin with a whitespace character
(so `str.strip()` leaves its front untouched). -/
def noLeadingWS (s : List Char) : Bool :=
  match s with
  | [] => true
  | c :: _ => !isPyWhitespace c

/-- The running buffer built by `splitLoop` from the accumulated
sentences: each one followed by the re-inserted `". "`. -/
def glueDS : List (List Char) → List Char
  | [] => []
  | s :: rest => s ++ '.' :: ' ' :: glueDS rest

/-- A 1901-character paragraph consisting of one single sentence
(no `". "` occurrence at all). -/
def longPara : List Char := List.replicate 1901 'a'

/-! ## Store query filters (schema property names)

The filter payloads sent to the document store by the three scripts. -/

/-- A Notion query filter as assembled by the scripts: a date-after
condition, a select-is-not-empty condition, an exact URL match, or a
conjunction of two filters. -/
inductive QueryFilter where
  | dateAfter (prop : String) (iso : String)
  | selectNonEmpty (prop : String)
  | urlEquals (prop : String) (url : String)
  | andF (f g : QueryFilter)

/-- The property names a filter touches. -/
def filterProps : QueryFilter → List String
  | QueryFilter.dateAfter p _ => [p]
  | QueryFilter.selectNonEmpty p => [p]
  | QueryFilter.urlEquals p _ => [p]
  | QueryFilter.andF f g => filterProps f ++ filterProps g

/-- The duplicate-check filter of `article_exists` (src/scraper.py
lines 36-39). -/
def articleExistsFilter (url : String) : QueryFilter :=
  QueryFilter.urlEquals "URL" url

/-- The digest query filter of `get_articles_from_last_24h` in
src/ai_digest.py (lines 58-72): Scraped Date after the lookback and
Source non-empty, sorted by Source. -/
def aiDigestQueryFilter (lookbackIso : String) : QueryFilter :=
  QueryFilter.andF (QueryFilter.dateAfter "Scraped Date" lookbackIso)
    (QueryFilter.selectNonEmpty "Source")

/-- The digest query filter of `get_articles_from_last_24h` in
src/news_digest.py (lines 41-60): the date property there is named
`"Date"`, not `"Scraped Date"`. -/
def ndDigestQueryFilter (lookbackIso : String) : QueryFilter :=
  QueryFilter.andF (QueryFilter.dateAfter "Date" lookbackIso)
    (QueryFilter.selectNonEmpty "Source")

/-- Modelled from the spec: the schema property-name contract as the
spec states it — "Exact property names (Title, URL, Source, Scraped
Date, Status, Summary, Published Date)". -/
def specSchemaNames : List String :=
  ["Title", "URL", "Source", "Scraped Date", "Status", "Summary", "Published Date"]

/-- The property names actually used by the ingestor's create
operation. -/
def createPropertyNames (a : Article) (now : String) : List String :=
  (createProperties a now).map Prod.fst

/-- A sample article touching every optional branch of
`createProperties`. -/
def sampleArticle : Article :=
  { title := "t", url := "https://example.com/a", category := "Tech",
    published_date := some "2024-01-01", summary := "s" }

/-! ## `src/ai_digest.py` — hot topics and AI summaries -/

/-- An article as grouped by `main` in src/ai_digest.py (lines
400-404): title, url, and the optionally fetched body content (`none`
when fetching failed or was skipped; Python treats both `None` and the
empty string as "no content"). -/
structure DigestArticle where
  title : String
  url : String
  content : Option String
deriving DecidableEq, Repr

/-- Python truthiness of `article.get('content')`. -/
def contentTruthy (a : DigestArticle) : Bool :=
  a.content.getD "" ≠ ""

/-- `CONFIG['max_articles_per_source']` in src/ai_digest.py (line 22)
and src/news_digest.py (line 17). -/
def AI_MAX_ARTICLES_PER_SOURCE : Nat := 10

/-- `CONFIG['hot_topic_threshold']` in src/ai_digest.py (line 27). -/
def HOT_TOPIC_THRESHOLD : Nat := 3

/-- Python `str.lower()` (ASCII view). -/
def lowerChars (cs : List Char) : List Char :=
  cs.map Char.toLower

/-- `[A-Za-z]` of the hot-topic token pattern. -/
def isAsciiAlpha (c : Char) : Bool :=
  (decide ('A' ≤ c) && decide (c ≤ 'Z')) || (decide ('a' ≤ c) && decide (c ≤ 'z'))

/-- A regex word character (`\w`, ASCII view), which determines the
`\b` boundaries of the token pattern. -/
def isWordChar (c : Char) : Bool :=
  isAsciiAlpha c || (decide ('0' ≤ c) && decide (c ≤ '9')) || c == '_'

/-- Maximal runs of word characters, accumulator-passing. -/
def wordRunsAux (cur : List Char) : List Char → List (List Char)
  | [] => if cur = [] then [] else [cur.reverse]
  | c :: cs =>
    if isWordChar c then wordRunsAux (c :: cur) cs
    else if cur = [] then wordRunsAux [] cs
    else cur.reverse :: wordRunsAux [] cs

/-- Maximal runs of word characters of a text. -/
def wordRuns (cs : List Char) : List (List Char) :=
  wordRunsAux [] cs

/-- `re.findall(r'\b[A-Za-z]{4,}\b', combined)`: maximal word-character
runs that are entirely alphabetic and at least 4 characters long. -/
def findTokens (cs : List Char) : List (List Char) :=
  (wordRuns cs).filter (fun r => decide (r.length ≥ 4) && r.all isAsciiAlpha)

/-- The fixed stopword set of `detect_hot_topics` (src/ai_digest.py
lines 190-192). -/
def stopwordsCL : List (List Char) :=
  (["this", "that", "with", "from", "have", "been", "will",
    "their", "what", "about", "which", "when", "make", "than",
    "other", "into", "could", "would", "should", "these", "those"]).map
    String.toList

/-- The lowercase text corpus built from every article's title and
first 500 characters of content (src/ai_digest.py lines 180-186). -/
def hotTopicsCorpus (groups : List (String × List DigestArticle)) : List (List Char) :=
  groups.flatMap (fun g =>
    g.2.flatMap (fun a =>
      lowerChars a.title.toList ::
        (if contentTruthy a then [lowerChars ((a.content.getD "").toList.take 500)]
         else [])))

/-- The corpus tokens that survive the stopword filter
(src/ai_digest.py lines 187-194). -/
def hotTopicsFiltered (groups : List (String × List DigestArticle)) : List (List Char) :=
  (findTokens (joinWithOne ' ' (hotTopicsCorpus groups))).filter
    (fun w => decide (w ∉ stopwordsCL))

/-- The distinct elements of a list in first-occurrence order — the key
order of a Python `Counter` built by counting the list. -/
def firstSeenAux (acc : List (List Char)) : List (List Char) → List (List Char)
  | [] => acc
  | w :: ws => firstSeenAux (if w ∈ acc then acc else acc ++ [w]) ws

/-- `collections.Counter(filtered)`: each distinct token (first-seen
order) paired with its multiplicity. -/
def tally (ws : List (List Char)) : List (List Char × Nat) :=
  (firstSeenAux [] ws).map (fun w => (w, ws.count w))

/-- Stable insertion keeping counts in descending order: an element is
placed after every earlier element whose count is at least as large,
matching `Counter.most_common`'s tie behaviour (insertion order). -/
def insertByCountDesc (x : List Char × Nat) : List (List Char × Nat) → List (List Char × Nat)
  | [] => [x]
  | y :: ys => if x.2 ≤ y.2 then y :: insertByCountDesc x ys else x :: y :: ys

/-- Stable sort by descending count. -/
def sortByCountDesc : List (List Char × Nat) → List (List Char × Nat)
  | [] => []
  | x :: xs => insertByCountDesc x (sortByCountDesc xs)

/-- `counts.most_common(10)`. -/
def mostCommon10 (counts : List (List Char × Nat)) : List (List Char × Nat) :=
  (sortByCountDesc counts).take 10

/-- `detect_hot_topics` (src/ai_digest.py lines 173-200), with the
fixed configuration `hot_topics_enabled = True`, threshold 3: of the 10
most frequent non-stopword tokens, those with count at least the
threshold. -/
def detect_hot_topics (groups : List (String × List DigestArticle)) : List (List Char) :=
  ((mostCommon10 (tally (hotTopicsFiltered groups))).filter
      (fun wc => decide (wc.2 ≥ HOT_TOPIC_THRESHOLD))).map Prod.fst

/-- A sample grouped corpus: "robot" appears three times, "widget"
once. -/
def hotSampleGroups : List (String × List DigestArticle) :=
  [("Tech", [{ title := "robot robot robot widget", url := "u", content := none }])]

/-! ## `src/ai_digest.py` — `generate_ai_summary` -/

/-- The summarization collaborator: system instruction and user content
in, generated text out, or an error (timeout, API failure). -/
def Summarizer : Type := String → String → Except Unit String

/-- The per-source system prompts of `generate_ai_summary`
(src/ai_digest.py lines 133-153). -/
def systemPromptFor (source : String) : String :=
  if source = "LEGO News" then
    "You are an enthusiastic LEGO journalist writing for a LEGO magazine. \nWrite a natural, engaging summary as if reporting the latest news to fellow LEGO fans. \nMention specific set numbers, themes, or builders when relevant. \nWrite in a storytelling style with personality. Keep under 1500 characters."
  else if source = "Data Science" then
    "You are a data science expert writing a briefing for colleagues. \nExplain the key insights and methodologies in a clear, natural way. \nWrite as if discussing these articles over coffee with a peer. \nBe conversational yet informative. Keep under 1500 characters."
  else if source = "Tech" then
    "You are a tech industry analyst writing for tech professionals. \nSummarize trends and developments in a conversational yet insightful tone. \nWrite as if explaining to an interested colleague. Keep under 1500 characters."
  else
    "You are an expert journalist. Write a natural summary as if reporting \nfor a publication. Be engaging and informative. Keep under 1500 characters."

/-- One article's contribution to `articles_text` (src/ai_digest.py
line 125), emitted only when the article has truthy content. -/
def articleSnippet (i : Nat) (a : DigestArticle) : String :=
  "\n\n--- Article " ++ toString i ++ ": " ++ a.title ++ " ---\n"
    ++ takeStr 1000 (a.content.getD "")

/-- One article's contribution to `article_list` (src/ai_digest.py
line 126). -/
def articleListLine (i : Nat) (a : DigestArticle) : String :=
  "\n" ++ toString i ++ ". " ++ a.title

/-- The `articles_text` / `article_list` accumulation loop
(src/ai_digest.py lines 120-126), with 1-based enumeration. -/
def buildTextsAux : Nat → List DigestArticle → String × String
  | _, [] => ("", "")
  | i, a :: rest =>
    ((if contentTruthy a then articleSnippet i a else "")
        ++ (buildTextsAux (i + 1) rest).1,
     articleListLine i a ++ (buildTextsAux (i + 1) rest).2)

/-- `articles_text` and `article_list` for one source group: the loop
runs over `articles[:CONFIG['max_articles_per_source']]`. -/
def buildTexts (arts : List DigestArticle) : String × String :=
  buildTextsAux 1 (arts.take AI_MAX_ARTICLES_PER_SOURCE)

/-- The user message sent to the collaborator (src/ai_digest.py
line 159). -/
def userContent (source articlesText articleList : String) : String :=
  "Summarize these " ++ source ++ " articles:\n" ++ articlesText
    ++ "\n\nArticle titles:" ++ articleList

/-- The per-group body of `generate_ai_summary` (src/ai_digest.py
lines 116-169): fixed fallback without calling the collaborator when
`articles_text` is empty; stripped collaborator text on success; fixed
fallback when the collaborator raises. -/
def summaryForGroup (oracle : Summarizer) (source : String)
    (arts : List DigestArticle) : String :=
  if (buildTexts arts).1 = "" then "No article content available."
  else
    match oracle (systemPromptFor source)
        (userContent source (buildTexts arts).1 (buildTexts arts).2) with
    | Except.error _ => "AI summary unavailable."
    | Except.ok t => stripStr t

/-- `generate_ai_summary` (src/ai_digest.py lines 109-171) with the
fixed configuration `ai_summary_enabled = True`: one summary entry per
source group, in group order. -/
def generate_ai_summary (oracle : Summarizer)
    (groups : List (String × List DigestArticle)) : List (String × String) :=
  groups.map (fun g => (g.1, summaryForGroup oracle g.1 g.2))

/-- A sample group whose single article has body content. -/
def artWithContent : DigestArticle :=
  { title := "t", url := "u", content := some "c" }

/-- A one-group corpus for concrete evaluation. -/
def groupsOne : List (String × List DigestArticle) :=
  [("Tech", [artWithContent])]

/-! ## Digest composition: `create_digest_page` in both digest scripts -/

/-- A document block as assembled by the digest composers. -/
inductive Block where
  | heading1 (text : String)
  | heading2 (text : String)
  | paragraph (text : String)
  | divider
  | bullet (text : String) (link : Option String)
deriving DecidableEq, Repr

/-- The per-source emoji map used by both digest scripts. -/
def emojiFor (src : String) : String :=
  if src = "LEGO News" then "🧱"
  else if src = "Data Science" then "📊"
  else if src = "Tech" then "💻"
  else "📰"

/-- `CONFIG['skip_empty_sources']` (src/ai_digest.py line 24,
src/news_digest.py line 19). -/
def SKIP_EMPTY_SOURCES : Bool := true

/-- `sep.join(pieces)` on string values. -/
def joinStrSep (sep : String) : List String → String
  | [] => ""
  | [s] => s
  | s :: rest => s ++ sep ++ joinStrSep sep rest

/-- Python `str.title()` (ASCII view): a letter after a non-letter is
uppercased, a letter after a letter is lowercased.  The flag records
whether the previous character was a letter. -/
def titleCaseAux : Bool → List Char → List Char
  | _, [] => []
  | prevAlpha, c :: cs =>
    (if isAsciiAlpha c then (if prevAlpha then c.toLower else c.toUpper) else c) ::
      titleCaseAux (isAsciiAlpha c) cs

/-- Python `str.title()` on a string value. -/
def titleCase (s : String) : String :=
  String.mk (titleCaseAux false s.toList)

/-- `topics_text` (src/ai_digest.py line 219): the first five hot
topics, title-cased, starred, comma-joined. -/
def topicsText (hot : List (List Char)) : String :=
  joinStrSep ", " ((hot.take 5).map (fun t => "**" ++ titleCase (String.mk t) ++ "**"))

/-- The optional hot-topics section of the ai_digest composer
(src/ai_digest.py lines 210-228). -/
def aiHotTopicsBlocks (hot : List (List Char)) : List Block :=
  if hot = [] then []
  else
    [Block.heading2 "🔥 Hot Topics Today",
     Block.paragraph (topicsText hot),
     Block.divider]

/-- `total = sum(len(arts) for arts in by_source.values())` — the
un-truncated total over the full groups. -/
def totalCount {α : Type} (by_source : List (String × List α)) : Nat :=
  (by_source.map (fun g => g.2.length)).sum

/-- The statistics section of the ai_digest composer (src/ai_digest.py
lines 231-256): overview heading, total line, one per-source count line
per group, each with the full group size. -/
def aiStatsBlocks (by_source : List (String × List DigestArticle)) : List Block :=
  Block.heading2 "📊 Overview" ::
    Block.paragraph ("Total Articles: " ++ toString (totalCount by_source)) ::
    by_source.map (fun g =>
      Block.paragraph
        (emojiFor g.1 ++ " " ++ g.1 ++ ": " ++ toString g.2.length ++ " articles"))

/-- A source's AI summary rendered as paragraph blocks
(src/ai_digest.py lines 278-314): split on blank lines, strip, drop
empties, then apply the 1900-character sentence splitter. -/
def summaryParagraphBlocks (summary : String) : List Block :=
  (((splitOnTwo '\n' '\n' summary.toList).map stripChars).filter
      (fun p => p ≠ [])).flatMap
    (fun para => (paragraphBlocksText para).map (fun t => Block.paragraph (String.mk t)))

/-- The article-link tail of an ai_digest source section
(src/ai_digest.py lines 317-343): intro line plus one bulleted link per
article, capped at the per-source maximum. -/
def aiLinkBlocks (articles : List DigestArticle) : List Block :=
  if articles = [] then []
  else
    Block.paragraph "\n📎 Read the full articles:" ::
      (articles.take AI_MAX_ARTICLES_PER_SOURCE).map
        (fun a => Block.bullet a.title (some a.url))

/-- One source section of the ai_digest composer (src/ai_digest.py
lines 261-345): skipped when empty (per config), else heading, summary
paragraphs, capped link list, divider. -/
def aiSourceSection (ai_summaries : List (String × String))
    (g : String × List DigestArticle) : List Block :=
  if SKIP_EMPTY_SOURCES && g.2.length == 0 then []
  else
    Block.heading2 (emojiFor g.1 ++ " " ++ g.1) ::
      ((match ai_summaries.lookup g.1 with
        | some summary => summaryParagraphBlocks summary
        | none => []) ++
       aiLinkBlocks g.2 ++ [Block.divider])

/-- The children blocks of `create_digest_page` in src/ai_digest.py
(lines 202-345). -/
def ai_create_digest_page (by_source : List (String × List DigestArticle))
    (ai_summaries : List (String × String)) (hot_topics : List (List Char)) :
    List Block :=
  aiHotTopicsBlocks hot_topics ++ aiStatsBlocks by_source ++ [Block.divider]
    ++ by_source.flatMap (aiSourceSection ai_summaries)

/-- An article as grouped by `create_summary_by_source` in
src/news_digest.py (lines 114-118). -/
structure NDArticle where
  title : String
  url : String
  date : String
deriving DecidableEq, Repr

/-- The statistics paragraph text of the news_digest composer
(src/news_digest.py lines 144-154): both rich-text segments
concatenated, all counts un-truncated. -/
def ndStatsText (by_source : List (String × List NDArticle)) : String :=
  "Total Articles: " ++ toString (totalCount by_source) ++ "  |  "
    ++ joinStrSep "  |  "
        (by_source.map (fun g => g.1 ++ ": " ++ toString g.2.length))

/-- One source section of the news_digest composer
(src/news_digest.py lines 163-193): skipped when empty (per config),
else a heading carrying the full count and one bulleted link per
article, capped at the per-source maximum; no link when the url is
falsy. -/
def ndSourceSection (g : String × List NDArticle) : List Block :=
  if SKIP_EMPTY_SOURCES && g.2.length == 0 then []
  else
    Block.heading2
        (emojiFor g.1 ++ " " ++ g.1 ++ " (" ++ toString g.2.length ++ " articles)") ::
      (g.2.take AI_MAX_ARTICLES_PER_SOURCE).map
        (fun a => Block.bullet a.title (if a.url ≠ "" then some a.url else none))

/-- The children blocks of `create_digest_page` in src/news_digest.py
(lines 122-193); `today` is the formatted date string. -/
def nd_create_digest_page (today : String)
    (by_source : List (String × List NDArticle)) : List Block :=
  [Block.heading1 ("📰 Daily News Summary - " ++ today), Block.divider]
    ++ [Block.paragraph (ndStatsText by_source)]
    ++ [Block.divider]
    ++ by_source.flatMap ndSourceSection

/-- Is a block a bulleted link item? -/
def isBullet : Block → Bool
  | Block.bullet _ _ => true
  | _ => false

/-- Number of bulleted link items in a block list. -/
def countBullets (blocks : List Block) : Nat :=
  (blocks.filter isBullet).length

/-! # Lemmas and theorems -/

/-! ## Text-helper lemmas -/

theorem splitOnTwo_ne_nil (c1 c2 : Char) (cs : List Char) : splitOnTwo c1 c2 cs ≠ [] := by
  induction cs using splitOnTwo.induct c1 c2 with
  | case1 => simp [splitOnTwo]
  | case2 c => simp [splitOnTwo]
  | case3 a b rest hsep ih => simp [splitOnTwo, hsep]
  | case4 a b rest hsep heq ih => simp [splitOnTwo, hsep, heq]
  | case5 a b rest hsep s ss heq ih => simp [splitOnTwo, hsep, heq]

/-- Re-joining the pieces of a split with the separator restores the
original text. -/
theorem joinWithTwo_splitOnTwo (c1 c2 : Char) (cs : List Char) :
    joinWithTwo c1 c2 (splitOnTwo c1 c2 cs) = cs := by
  induction cs using splitOnTwo.induct c1 c2 with
  | case1 => simp [splitOnTwo, joinWithTwo]
  | case2 c => simp [splitOnTwo, joinWithTwo]
  | case3 a b rest hsep ih =>
    simp only [splitOnTwo, hsep, if_true]
    cases h : splitOnTwo c1 c2 rest with
    | nil => exact absurd h (splitOnTwo_ne_nil c1 c2 rest)
    | cons s ss =>
      rw [h] at ih
      simp only [joinWithTwo]
      rw [ih]
      simp at hsep
      simp [hsep.1, hsep.2]
  | case4 a b rest hsep heq ih =>
    exact absurd heq (splitOnTwo_ne_nil c1 c2 (b :: rest))
  | case5 a b rest hsep s ss heq ih =>
    simp only [splitOnTwo, hsep, Bool.false_eq_true, if_false, heq]
    rw [heq] at ih
    cases ss with
    | nil => simp only [joinWithTwo] at ih ⊢; rw [ih]
    | cons t ts => simp only [joinWithTwo] at ih ⊢; rw [List.cons_append, ih]

/-- A text containing no occurrence of the separator's first character
splits into a single piece. -/
theorem splitOnTwo_no_sep (c1 c2 : Char) (cs : List Char) (h : c1 ∉ cs) :
    splitOnTwo c1 c2 cs = [cs] := by
  revert h
  induction cs with
  | nil => intro h; rfl
  | cons a tail ih =>
    intro h
    cases tail with
    | nil => rfl
    | cons b rest =>
      have ha : ¬((a = c1 && b = c2) = true) := by
        intro hc
        rw [Bool.and_eq_true, decide_eq_true_eq, decide_eq_true_eq] at hc
        exact h (hc.1 ▸ List.mem_cons_self a (b :: rest))
      have htail : c1 ∉ b :: rest := fun hm => h (List.mem_cons_of_mem a hm)
      simp only [splitOnTwo, if_neg ha, ih htail]

theorem splitOnTwo_longPara : splitOnTwo '.' ' ' longPara = [longPara] := by
  apply splitOnTwo_no_sep
  intro hm
  rw [longPara, List.mem_replicate] at hm
  exact absurd hm.2 (by decide)

theorem dropWhile_length_le (p : Char → Bool) (l : List Char) :
    (l.dropWhile p).length ≤ l.length := by
  induction l with
  | nil => simp
  | cons a as ih =>
    rw [List.dropWhile_cons]
    by_cases h : p a = true
    · rw [if_pos h]
      exact le_trans ih (by simp)
    · rw [if_neg h]

theorem stripChars_length_le (cs : List Char) : (stripChars cs).length ≤ cs.length := by
  unfold stripChars
  rw [List.length_reverse]
  calc ((cs.dropWhile isPyWhitespace).reverse.dropWhile isPyWhitespace).length
      ≤ (cs.dropWhile isPyWhitespace).reverse.length := dropWhile_length_le _ _
    _ = (cs.dropWhile isPyWhitespace).length := List.length_reverse _
    _ ≤ cs.length := dropWhile_length_le _ _

/-- Stripping a buffer of the form `l ++ ". "` whose first character is
not whitespace removes exactly the final space. -/
theorem stripChars_append_sep (l : List Char)
    (h : ∃ c t, l ++ ['.', ' '] = c :: t ∧ isPyWhitespace c = false) :
    stripChars (l ++ ['.', ' ']) = l ++ ['.'] := by
  obtain ⟨c, t, heq, hc⟩ := h
  have h1 : List.dropWhile isPyWhitespace (l ++ ['.', ' ']) = l ++ ['.', ' '] := by
    rw [heq, List.dropWhile_cons, hc]
    simp
  unfold stripChars
  rw [h1]
  have h2 : (l ++ ['.', ' ']).reverse = ' ' :: '.' :: l.reverse := by
    simp
  rw [h2, List.dropWhile_cons]
  have hws : isPyWhitespace ' ' = true := by decide
  rw [hws]
  simp only [if_true]
  rw [List.dropWhile_cons]
  have hwd : isPyWhitespace '.' = false := by decide
  rw [hwd]
  simp

theorem glueDS_ne_nil (s : List Char) (rest : List (List Char)) :
    glueDS (s :: rest) ≠ [] := by
  simp [glueDS]

theorem glueDS_eq_join (ss : List (List Char)) (h : ss ≠ []) :
    glueDS ss = joinWithTwo '.' ' ' ss ++ ['.', ' '] := by
  induction ss with
  | nil => exact absurd rfl h
  | cons s rest ih =>
    cases rest with
    | nil => simp [glueDS, joinWithTwo]
    | cons r rs =>
      have h2 : glueDS (s :: r :: rs) = s ++ '.' :: ' ' :: glueDS (r :: rs) := rfl
      have h3 : joinWithTwo '.' ' ' (s :: r :: rs) =
          s ++ '.' :: ' ' :: joinWithTwo '.' ' ' (r :: rs) := rfl
      rw [h2, h3, ih (by simp)]
      simp

theorem glueDS_append_single (acc : List (List Char)) (s : List Char) :
    glueDS (acc ++ [s]) = glueDS acc ++ s ++ ['.', ' '] := by
  induction acc with
  | nil => simp [glueDS]
  | cons a as ih => simp [glueDS, ih]

/-- Under the no-leading-whitespace condition, the glued buffer (which
always ends in `". "`) starts with a non-whitespace character. -/
theorem join_head_nonws (acc : List (List Char))
    (hok : ∀ s ∈ acc, noLeadingWS s = true) :
    ∃ c t, joinWithTwo '.' ' ' acc ++ ['.', ' '] = c :: t ∧ isPyWhitespace c = false := by
  cases acc with
  | nil => exact ⟨'.', [' '], rfl, by decide⟩
  | cons s rest =>
    cases s with
    | nil =>
      cases rest with
      | nil => exact ⟨'.', [' '], rfl, by decide⟩
      | cons r rs => exact ⟨'.', _, rfl, by decide⟩
    | cons ch cs =>
      have hch : isPyWhitespace ch = false := by
        have := hok (ch :: cs) (List.mem_cons_self _ _)
        simp [noLeadingWS] at this
        exact this
      cases rest with
      | nil => exact ⟨ch, _, rfl, hch⟩
      | cons r rs => exact ⟨ch, _, rfl, hch⟩

theorem stripChars_glue (acc : List (List Char)) (hne : acc ≠ [])
    (hok : ∀ s ∈ acc, noLeadingWS s = true) :
    stripChars (glueDS acc) = joinWithTwo '.' ' ' acc ++ ['.'] := by
  rw [glueDS_eq_join acc hne]
  exact stripChars_append_sep _ (join_head_nonws acc hok)

theorem splitLoop_ne_nil (ss : List (List Char)) :
    ∀ current : List Char, current ≠ [] → splitLoop ss current ≠ [] := by
  induction ss with
  | nil =>
    intro current h
    simp [splitLoop, h]
  | cons s rest ih =>
    intro current h
    simp only [splitLoop]
    by_cases hC : current.length + s.length + 2 < 1900
    · rw [if_pos hC]
      exact ih _ (by simp [h])
    · rw [if_neg hC]
      intro hcontra
      rw [List.append_eq_nil] at hcontra
      exact ih (s ++ ['.', ' ']) (by simp) hcontra.2

theorem joinWithOne_cons_ne (c : Char) (x : List Char) (l : List (List Char))
    (h : l ≠ []) : joinWithOne c (x :: l) = x ++ c :: joinWithOne c l := by
  cases l with
  | nil => exact absurd rfl h
  | cons y ys => rfl

theorem joinWithTwo_append (c1 c2 : Char) (l1 l2 : List (List Char))
    (h1 : l1 ≠ []) (h2 : l2 ≠ []) :
    joinWithTwo c1 c2 (l1 ++ l2) =
      joinWithTwo c1 c2 l1 ++ c1 :: c2 :: joinWithTwo c1 c2 l2 := by
  induction l1 with
  | nil => exact absurd rfl h1
  | cons s rest ih =>
    cases rest with
    | nil =>
      cases l2 with
      | nil => exact absurd rfl h2
      | cons y ys => simp [joinWithTwo]
    | cons r rs =>
      have := ih (by simp)
      simp only [List.cons_append] at this ⊢
      simp only [joinWithTwo] at this ⊢
      rw [this]
      simp

/-- Invariant of the sentence-accumulation loop: joining the emitted
blocks with single spaces reproduces the pending buffer and remaining
sentences, joined by `". "`, plus a final `'.'`. -/
theorem splitLoop_join (ss : List (List Char)) :
    ∀ acc : List (List Char),
    (∀ s ∈ ss, noLeadingWS s = true) → (∀ s ∈ acc, noLeadingWS s = true) →
    joinWithOne ' ' (splitLoop ss (glueDS acc)) =
      if acc = [] ∧ ss = [] then []
      else joinWithTwo '.' ' ' (acc ++ ss) ++ ['.'] := by
  induction ss with
  | nil =>
    intro acc _ hacc
    cases acc with
    | nil => simp [splitLoop, glueDS, joinWithOne]
    | cons a as =>
      have hne : glueDS (a :: as) ≠ [] := glueDS_ne_nil a as
      simp only [splitLoop, if_neg hne]
      rw [joinWithOne]
      rw [stripChars_glue (a :: as) (by simp) hacc]
      simp
  | cons s rest ih =>
    intro acc hss hacc
    have hs : noLeadingWS s = true := hss s (List.mem_cons_self _ _)
    have hrest : ∀ x ∈ rest, noLeadingWS x = true :=
      fun x hx => hss x (List.mem_cons_of_mem _ hx)
    simp only [splitLoop]
    by_cases hC : (glueDS acc).length + s.length + 2 < 1900
    · rw [if_pos hC]
      have harr : glueDS acc ++ s ++ ['.', ' '] = glueDS (acc ++ [s]) := by
        rw [glueDS_append_single]
      rw [harr]
      have hacc' : ∀ x ∈ acc ++ [s], noLeadingWS x = true := by
        intro x hx
        rcases List.mem_append.mp hx with h | h
        · exact hacc x h
        · rw [List.mem_singleton] at h
          exact h ▸ hs
      rw [ih (acc ++ [s]) hrest hacc']
      have hne : acc ++ [s] ≠ [] := by simp
      rw [if_neg (by simp), if_neg (by simp [hne])]
      have : acc ++ [s] ++ rest = acc ++ s :: rest := by simp
      rw [this]
    · rw [if_neg hC]
      have hglue_s : s ++ ['.', ' '] = glueDS [s] := by simp [glueDS]
      have hB2 : joinWithOne ' ' (splitLoop rest (glueDS [s])) =
          joinWithTwo '.' ' ' ([s] ++ rest) ++ ['.'] := by
        rw [ih [s] hrest (by intro x hx; rw [List.mem_singleton] at hx; exact hx ▸ hs)]
        rw [if_neg (by simp)]
      have hB2ne : splitLoop rest (glueDS [s]) ≠ [] :=
        splitLoop_ne_nil rest _ (glueDS_ne_nil s [])
      cases acc with
      | nil =>
        simp only [glueDS]
        rw [if_pos trivial, List.nil_append, hglue_s, hB2]
        rw [if_neg (by simp)]
        simp
      | cons a as =>
        have hne : glueDS (a :: as) ≠ [] := glueDS_ne_nil a as
        rw [if_neg hne, List.singleton_append, hglue_s]
        rw [joinWithOne_cons_ne ' ' _ _ hB2ne]
        rw [hB2]
        rw [stripChars_glue (a :: as) (by simp) hacc]
        rw [if_neg (by simp)]
        rw [joinWithTwo_append '.' ' ' (a :: as) (s :: rest) (by simp) (by simp)]
        simp

/-- Every block the loop emits stays under the ceiling, provided every
sentence is short enough and the incoming buffer is under 1900. -/
theorem splitLoop_length_le (ss : List (List Char)) :
    ∀ current : List Char,
    (∀ s ∈ ss, s.length ≤ 1897) → current.length ≤ 1899 →
    ∀ b ∈ splitLoop ss current, b.length ≤ 1900 := by
  induction ss with
  | nil =>
    intro current _ hc b hb
    simp only [splitLoop] at hb
    by_cases h0 : current = []
    · rw [if_pos h0] at hb
      exact absurd hb (List.not_mem_nil b)
    · rw [if_neg h0, List.mem_singleton] at hb
      rw [hb]
      exact le_trans (stripChars_length_le current) (le_trans hc (by norm_num))
  | cons s rest ih =>
    intro current hs hc b hb
    have hsh : s.length ≤ 1897 := hs s (List.mem_cons_self _ _)
    have hrest : ∀ x ∈ rest, x.length ≤ 1897 :=
      fun x hx => hs x (List.mem_cons_of_mem _ hx)
    simp only [splitLoop] at hb
    by_cases hC : current.length + s.length + 2 < 1900
    · rw [if_pos hC] at hb
      have : (current ++ s ++ ['.', ' ']).length ≤ 1899 := by
        simp only [List.length_append, List.length_cons, List.length_nil]
        omega
      exact ih _ hrest this b hb
    · rw [if_neg hC] at hb
      rcases List.mem_append.mp hb with h | h
      · by_cases h0 : current = []
        · rw [if_pos h0] at h
          exact absurd h (List.not_mem_nil b)
        · rw [if_neg h0, List.mem_singleton] at h
          rw [h]
          exact le_trans (stripChars_length_le current) (le_trans hc (by norm_num))
      · have : (s ++ ['.', ' ']).length ≤ 1899 := by
          simp only [List.length_append, List.length_cons, List.length_nil]
          omega
        exact ih _ hrest this b h

theorem longPara_length : longPara.length = 1901 := by
  rw [longPara]
  exact List.length_replicate 1901 'a'

/-- Concrete evaluation of the splitter on the single-sentence
1901-character paragraph: one block, the paragraph plus `'.'`. -/
theorem blocks_longPara : paragraphBlocksText longPara = [longPara ++ ['.']] := by
  have hstrip : stripChars (longPara ++ ['.', ' ']) = longPara ++ ['.'] := by
    apply stripChars_append_sep
    refine ⟨'a', List.replicate 1900 'a' ++ ['.', ' '], ?_, by decide⟩
    rw [longPara, List.replicate_succ, List.cons_append]
  unfold paragraphBlocksText
  rw [if_pos (by rw [longPara_length]; norm_num)]
  rw [splitOnTwo_longPara]
  simp only [splitLoop]
  rw [if_neg (by rw [List.length_nil, longPara_length]; norm_num)]
  rw [if_pos trivial, List.nil_append]
  rw [if_neg (by simp), hstrip]

/-! ## Theorems for the claims -/

/-- C1: when the duplicate-check query against the store raises, the
gate `article_exists` returns `false` — the article is treated as new
and ingestion proceeds (fail open). -/
theorem C1_dedup_fails_open (store : StoreQuery) (url : String)
    (h : store url = Except.error ()) : article_exists store url = false := by
  unfold article_exists
  rw [h]

/-- Witness for C1 at a concrete failing store and URL. -/
theorem C1_dedup_fails_open_witness :
    article_exists (fun _ => Except.error ()) "https://example.com/a" = false :=
  C1_dedup_fails_open (fun _ => Except.error ()) "https://example.com/a" rfl

/-- C9 counterexample: an entry with no title field is normalized with
placeholder title `"No Title"`, not `"Untitled"` as the claim states. -/
theorem C9_counterexample :
    (normalizeEntry "Tech"
      { title := none, link := some "https://example.com/a",
        publishedParsed := none, summaryText := "" }).title = "No Title" ∧
    "No Title" ≠ "Untitled" := by
  constructor
  · rfl
  · decide

/-- C9 amended: for every raw feed entry with no title field, the
normalizer outputs an Article whose title is the placeholder string
`"No Title"`. -/
theorem C9_no_title_placeholder (category : String) (e : RawEntry)
    (h : e.title = none) : (normalizeEntry category e).title = "No Title" := by
  unfold normalizeEntry
  rw [h]
  rfl

/-- Witness for C9 amended at a concrete entry. -/
theorem C9_no_title_placeholder_witness :
    (normalizeEntry "Tech"
      { title := none, link := some "u", publishedParsed := none,
        summaryText := "s" }).title = "No Title" :=
  C9_no_title_placeholder "Tech"
    { title := none, link := some "u", publishedParsed := none, summaryText := "s" }
    rfl

/-- C10: whatever the feed yields, `parse_rss_feed` returns at most
`MAX_ARTICLES_PER_SOURCE` (= 10) Articles: the per-source cap is applied
at parse time, before deduplication or storage. -/
theorem C10_parse_cap (entries : List RawEntry) (category : String) :
    (parse_rss_feed entries category).length ≤ MAX_ARTICLES_PER_SOURCE := by
  unfold parse_rss_feed
  rw [List.length_map]
  exact List.length_take_le _ _

/-- C2 counterexample: an entry whose resolved link field is empty is
NOT dropped by the normalizer — `parse_rss_feed` emits an Article with
an empty `url`, and `create_notion_page` (with a store reporting no
duplicate) writes that Article, URL property `""` included. -/
theorem C2_counterexample :
    (parse_rss_feed
        [{ title := some "t", link := none, publishedParsed := none,
           summaryText := "" }] "Tech").map Article.url = [""] ∧
    create_notion_page (fun _ => Except.ok [])
        (normalizeEntry "Tech"
          { title := some "t", link := none, publishedParsed := none,
            summaryText := "" }) "2024-01-01T00:00:00+00:00"
      = some
          [("Title", PropValue.titleV "t"),
           ("URL", PropValue.urlV ""),
           ("Source", PropValue.selectV "Tech"),
           ("Scraped Date", PropValue.dateV "2024-01-01T00:00:00+00:00"),
           ("Read Status", PropValue.selectV "Unread")] := by
  constructor
  · rfl
  · rfl

/-- C2 amended: entries with an empty resolved link are kept, not
dropped: the normalizer always emits one Article per (capped) entry,
with `url = ""` when the link is missing, and `create_notion_page`
writes such an Article (its URL property being the empty string)
whenever the gate does not report a duplicate. -/
theorem C2_empty_url_kept (category : String) (e : RawEntry)
    (store : StoreQuery) (now : String)
    (hlink : e.link = none)
    (hnew : article_exists store ((normalizeEntry category e).url) = false) :
    (normalizeEntry category e).url = "" ∧
    create_notion_page store (normalizeEntry category e) now
      = some (createProperties (normalizeEntry category e) now) ∧
    ("URL", PropValue.urlV "") ∈ createProperties (normalizeEntry category e) now := by
  have hurl : (normalizeEntry category e).url = "" := by
    unfold normalizeEntry
    rw [hlink]
    rfl
  refine ⟨hurl, ?_, ?_⟩
  · unfold create_notion_page
    rw [hnew]
    rfl
  · unfold createProperties
    rw [hurl]
    simp

/-- Witness for C2 amended at a concrete entry and store. -/
theorem C2_empty_url_kept_witness :
    (normalizeEntry "Tech"
        { title := some "t", link := none, publishedParsed := none,
          summaryText := "" }).url = "" ∧
    create_notion_page (fun _ => Except.ok [])
        (normalizeEntry "Tech"
          { title := some "t", link := none, publishedParsed := none,
            summaryText := "" }) "now"
      = some (createProperties
          (normalizeEntry "Tech"
            { title := some "t", link := none, publishedParsed := none,
              summaryText := "" }) "now") ∧
    ("URL", PropValue.urlV "") ∈
      createProperties
        (normalizeEntry "Tech"
          { title := some "t", link := none, publishedParsed := none,
            summaryText := "" }) "now" :=
  C2_empty_url_kept "Tech"
    { title := some "t", link := none, publishedParsed := none, summaryText := "" }
    (fun _ => Except.ok []) "now" rfl rfl

/-- C3 counterexample: a paragraph that is a single 1901-character
sentence (longer than 1900, no `". "` inside) is emitted as one block of
1902 characters — the splitter does exceed the 1900-character ceiling. -/
theorem C3_counterexample :
    longPara.length > 1900 ∧
    splitOnTwo '.' ' ' longPara = [longPara] ∧
    paragraphBlocksText longPara = [longPara ++ ['.']] ∧
    (longPara ++ ['.']).length > 1900 := by
  refine ⟨?_, splitOnTwo_longPara, blocks_longPara, ?_⟩
  · rw [longPara_length]
    norm_num
  · rw [List.length_append, longPara_length]
    simp only [List.length_cons, List.length_nil]
    norm_num

/-- C3 amended: the paragraph splitter never emits a block whose text
exceeds the 1900-character ceiling, provided every sentence of the
paragraph (split on `". "`) is at most 1897 characters long; a single
longer sentence is emitted as an oversized block. -/
theorem C3_block_ceiling (para : List Char)
    (hs : ∀ s ∈ splitOnTwo '.' ' ' para, s.length ≤ 1897) :
    ∀ b ∈ paragraphBlocksText para, b.length ≤ 1900 := by
  intro b hb
  unfold paragraphBlocksText at hb
  by_cases hlen : para.length > 1900
  · rw [if_pos hlen] at hb
    exact splitLoop_length_le (splitOnTwo '.' ' ' para) [] hs (by simp) b hb
  · rw [if_neg hlen] at hb
    rw [List.mem_singleton] at hb
    rw [hb]
    omega

/-- Witness for C3 amended at a concrete short-sentence paragraph. -/
theorem C3_block_ceiling_witness :
    (∀ s ∈ splitOnTwo '.' ' ' ("Alpha beta. Gamma delta".toList), s.length ≤ 1897) ∧
    (∀ b ∈ paragraphBlocksText ("Alpha beta. Gamma delta".toList), b.length ≤ 1900) :=
  ⟨by decide, C3_block_ceiling ("Alpha beta. Gamma delta".toList) (by decide)⟩

/-- C4 counterexample: for the 1901-character single-sentence paragraph,
re-joining the emitted blocks with `". "` does not reconstruct the
original paragraph (the splitter appends a terminating `'.'`). -/
theorem C4_counterexample :
    longPara.length > 1900 ∧
    joinWithTwo '.' ' ' (paragraphBlocksText longPara) ≠ longPara := by
  constructor
  · rw [longPara_length]
    norm_num
  · rw [blocks_longPara]
    have hjoin : joinWithTwo '.' ' ' [longPara ++ ['.']] = longPara ++ ['.'] := rfl
    rw [hjoin]
    intro h
    have hcontra := congrArg List.length h
    rw [List.length_append, longPara_length] at hcontra
    simp at hcontra

/-- C4 amended: for every paragraph longer than 1900 characters none of
whose sentences begins with a whitespace character, concatenating the
emitted blocks with a single `' '` separator reconstructs the original
paragraph with one `'.'` appended (each block ends with its own `'.'`,
so the single space restores the `". "` separators). -/
theorem C4_roundtrip (para : List Char) (hlen : para.length > 1900)
    (hok : ∀ s ∈ splitOnTwo '.' ' ' para, noLeadingWS s = true) :
    joinWithOne ' ' (paragraphBlocksText para) = para ++ ['.'] := by
  unfold paragraphBlocksText
  rw [if_pos hlen]
  have h := splitLoop_join (splitOnTwo '.' ' ' para) [] hok (by simp)
  simp only [glueDS] at h
  rw [h]
  rw [if_neg (fun hand => splitOnTwo_ne_nil '.' ' ' para hand.2)]
  rw [List.nil_append, joinWithTwo_splitOnTwo]

/-! ## Hot-topic helper lemmas -/

theorem mem_insertByCountDesc (x y : List Char × Nat) (l : List (List Char × Nat))
    (h : y ∈ insertByCountDesc x l) : y = x ∨ y ∈ l := by
  induction l with
  | nil =>
    simp only [insertByCountDesc, List.mem_singleton] at h
    exact Or.inl h
  | cons z zs ih =>
    simp only [insertByCountDesc] at h
    by_cases hc : x.2 ≤ z.2
    · rw [if_pos hc] at h
      rcases List.mem_cons.mp h with h2 | h2
      · exact Or.inr (h2 ▸ List.mem_cons_self _ _)
      · rcases ih h2 with h3 | h3
        · exact Or.inl h3
        · exact Or.inr (List.mem_cons_of_mem _ h3)
    · rw [if_neg hc] at h
      rcases List.mem_cons.mp h with h2 | h2
      · exact Or.inl h2
      · exact Or.inr h2

theorem mem_sortByCountDesc (y : List Char × Nat) (l : List (List Char × Nat))
    (h : y ∈ sortByCountDesc l) : y ∈ l := by
  induction l with
  | nil => exact h
  | cons z zs ih =>
    simp only [sortByCountDesc] at h
    rcases mem_insertByCountDesc z y _ h with h2 | h2
    · exact h2 ▸ List.mem_cons_self _ _
    · exact List.mem_cons_of_mem _ (ih h2)

theorem mem_firstSeenAux (ws : List (List Char)) :
    ∀ acc y, y ∈ firstSeenAux acc ws → y ∈ acc ∨ y ∈ ws := by
  induction ws with
  | nil =>
    intro acc y h
    exact Or.inl h
  | cons w' rest ih =>
    intro acc y h
    simp only [firstSeenAux] at h
    rcases ih _ y h with h2 | h2
    · by_cases hm : w' ∈ acc
      · rw [if_pos hm] at h2
        exact Or.inl h2
      · rw [if_neg hm] at h2
        rcases List.mem_append.mp h2 with h3 | h3
        · exact Or.inl h3
        · rw [List.mem_singleton] at h3
          exact Or.inr (h3 ▸ List.mem_cons_self _ _)
    · exact Or.inr (List.mem_cons_of_mem _ h2)

/-! ## Summary-orchestrator helper lemmas -/

theorem buildTextsAux_no_content (arts : List DigestArticle) :
    ∀ i, (∀ a ∈ arts, contentTruthy a = false) → (buildTextsAux i arts).1 = "" := by
  induction arts with
  | nil => intro i _; rfl
  | cons a rest ih =>
    intro i h
    have ha : contentTruthy a = false := h a (List.mem_cons_self _ _)
    show (if contentTruthy a then articleSnippet i a else "")
        ++ (buildTextsAux (i + 1) rest).1 = ""
    rw [ha, ih (i + 1) (fun x hx => h x (List.mem_cons_of_mem _ hx))]
    rfl

theorem buildTexts_no_content (arts : List DigestArticle)
    (h : ∀ a ∈ arts, contentTruthy a = false) : (buildTexts arts).1 = "" :=
  buildTextsAux_no_content _ 1 (fun a ha => h a (List.take_subset _ _ ha))

/-- Witness for C4 amended at the concrete 1901-character paragraph. -/
theorem C4_roundtrip_witness :
    longPara.length > 1900 ∧
    (∀ s ∈ splitOnTwo '.' ' ' longPara, noLeadingWS s = true) ∧
    joinWithOne ' ' (paragraphBlocksText longPara) = longPara ++ ['.'] := by
  have hlen : longPara.length > 1900 := by rw [longPara_length]; norm_num
  have hok : ∀ s ∈ splitOnTwo '.' ' ' longPara, noLeadingWS s = true := by
    rw [splitOnTwo_longPara]
    intro s hs
    rw [List.mem_singleton] at hs
    rw [hs, longPara, List.replicate_succ]
    rfl
  exact ⟨hlen, hok, C4_roundtrip longPara hlen hok⟩

/-- C5 counterexample: the ingestor's create operation uses the
property name `"Read Status"`, which is not in the claimed schema set
(the claim lists `"Status"`, which the create operation never uses),
and the news_digest query filters on `"Date"`, also outside the claimed
set. -/
theorem C5_counterexample :
    "Read Status" ∈ createPropertyNames sampleArticle "2024-06-01T00:00:00Z" ∧
    "Read Status" ∉ specSchemaNames ∧
    "Status" ∉ createPropertyNames sampleArticle "2024-06-01T00:00:00Z" ∧
    "Date" ∈ filterProps (ndDigestQueryFilter "2024-05-31T00:00:00Z") ∧
    "Date" ∉ specSchemaNames := by
  decide

/-- C5 amended: the create operation uses only the property names
Title, URL, Source, Scraped Date, Read Status, Published Date, Summary
(`"Read Status"`, not `"Status"`); the ai_digest query filters on
exactly Scraped Date and Source; the news_digest query filters on
exactly Date and Source (a name the ingestor never writes); the
duplicate check filters on URL only. -/
theorem C5_property_names (a : Article) (now lb url p : String)
    (hp : p ∈ createPropertyNames a now) :
    p ∈ ["Title", "URL", "Source", "Scraped Date", "Read Status",
         "Published Date", "Summary"] ∧
    filterProps (aiDigestQueryFilter lb) = ["Scraped Date", "Source"] ∧
    filterProps (ndDigestQueryFilter lb) = ["Date", "Source"] ∧
    filterProps (articleExistsFilter url) = ["URL"] := by
  refine ⟨?_, rfl, rfl, rfl⟩
  unfold createPropertyNames createProperties at hp
  cases hpd : a.published_date with
  | none =>
    rw [hpd] at hp
    by_cases hs : a.summary = ""
    · simp [hs] at hp
      rcases hp with h | h | h | h | h <;> simp [h]
    · simp [hs] at hp
      rcases hp with h | h | h | h | h | h <;> simp [h]
  | some d =>
    rw [hpd] at hp
    by_cases hs : a.summary = ""
    · simp [hs] at hp
      rcases hp with h | h | h | h | h | h <;> simp [h]
    · simp [hs] at hp
      rcases hp with h | h | h | h | h | h | h <;> simp [h]

/-- Witness for C5 amended at a concrete article and property. -/
theorem C5_property_names_witness :
    ("Read Status" ∈ createPropertyNames sampleArticle "2024") ∧
    "Read Status" ∈ ["Title", "URL", "Source", "Scraped Date", "Read Status",
                     "Published Date", "Summary"] :=
  ⟨by decide,
   (C5_property_names sampleArticle "2024" "lb" "u" "Read Status" (by decide)).1⟩

/-- C6: every token returned by `detect_hot_topics` has frequency at
least the threshold (3) in the filtered corpus, is not a stopword, and
is drawn from the 10 most frequent tokens of the filtered corpus. -/
theorem C6_hot_topics (groups : List (String × List DigestArticle)) (w : List Char)
    (hw : w ∈ detect_hot_topics groups) :
    (hotTopicsFiltered groups).count w ≥ HOT_TOPIC_THRESHOLD ∧
    w ∉ stopwordsCL ∧
    w ∈ (mostCommon10 (tally (hotTopicsFiltered groups))).map Prod.fst := by
  unfold detect_hot_topics at hw
  obtain ⟨wc, hwc, hfst⟩ := List.mem_map.mp hw
  obtain ⟨hmem10, hpred⟩ := List.mem_filter.mp hwc
  rw [decide_eq_true_eq] at hpred
  have hmemsort : wc ∈ sortByCountDesc (tally (hotTopicsFiltered groups)) := by
    unfold mostCommon10 at hmem10
    exact List.take_subset _ _ hmem10
  have hmemtally := mem_sortByCountDesc wc _ hmemsort
  obtain ⟨w', hw', heq⟩ := List.mem_map.mp hmemtally
  refine ⟨?_, ?_, ?_⟩
  · have hcount : wc.2 = (hotTopicsFiltered groups).count wc.1 := by
      rw [← heq]
    rw [← hfst, ← hcount]
    exact hpred
  · have hw1 : wc.1 ∈ hotTopicsFiltered groups := by
      rcases mem_firstSeenAux _ [] w' hw' with h2 | h2
      · exact absurd h2 (List.not_mem_nil _)
      · rw [← heq]
        exact h2
    unfold hotTopicsFiltered at hw1
    have hns := (List.mem_filter.mp hw1).2
    rw [decide_eq_true_eq] at hns
    rw [← hfst]
    exact hns
  · rw [← hfst]
    exact List.mem_map_of_mem Prod.fst hmem10

/-- Witness for C6 at a concrete corpus ("robot" three times, "widget"
once, threshold 3). -/
theorem C6_hot_topics_witness :
    ("robot".toList ∈ detect_hot_topics hotSampleGroups) ∧
    ((hotTopicsFiltered hotSampleGroups).count "robot".toList ≥ HOT_TOPIC_THRESHOLD ∧
     "robot".toList ∉ stopwordsCL ∧
     "robot".toList ∈ (mostCommon10 (tally (hotTopicsFiltered hotSampleGroups))).map Prod.fst) :=
  ⟨by decide, C6_hot_topics hotSampleGroups "robot".toList (by decide)⟩

/-- C7 counterexample: with a collaborator that succeeds but returns
the empty string, the group with body content gets the entry `""` — the
result mapping does NOT contain a non-empty entry for that source, so
the blanket "non-empty entry" guarantee fails in the success case. -/
theorem C7_counterexample :
    ("Tech", [artWithContent]) ∈ groupsOne ∧
    [artWithContent] ≠ [] ∧
    generate_ai_summary (fun _ _ => Except.ok "") groupsOne = [("Tech", "")] ∧
    (∀ v, ("Tech", v) ∈ generate_ai_summary (fun _ _ => Except.ok "") groupsOne → v = "") := by
  refine ⟨by decide, by decide, by decide, ?_⟩
  intro v hv
  rw [show generate_ai_summary (fun _ _ => Except.ok "") groupsOne = [("Tech", "")]
    from by decide] at hv
  rw [List.mem_singleton, Prod.mk.injEq] at hv
  exact hv.2

/-- C7 amended: the orchestrator's result mapping has an entry for
every source group; when no article of the group has body content the
entry is the non-empty fallback `"No article content available."`
whatever the collaborator does (it is not called); when the content
blob is non-empty and the collaborator raises, the entry is the
non-empty fallback `"AI summary unavailable."` (the failure never
propagates); on success the entry is the collaborator's text stripped
of surrounding whitespace — which can be empty when the collaborator
returns only whitespace. -/
theorem C7_summary_entries (oracle : Summarizer)
    (groups : List (String × List DigestArticle)) (source : String)
    (arts : List DigestArticle)
    (hmem : (source, arts) ∈ groups) (_hne : arts ≠ []) :
    ((source, summaryForGroup oracle source arts) ∈ generate_ai_summary oracle groups) ∧
    ((∀ a ∈ arts, contentTruthy a = false) →
      ∀ oracle2 : Summarizer,
        summaryForGroup oracle2 source arts = "No article content available.") ∧
    ((buildTexts arts).1 ≠ "" →
      ∀ e, oracle (systemPromptFor source)
          (userContent source (buildTexts arts).1 (buildTexts arts).2) = Except.error e →
        summaryForGroup oracle source arts = "AI summary unavailable.") ∧
    ((buildTexts arts).1 ≠ "" →
      ∀ t, oracle (systemPromptFor source)
          (userContent source (buildTexts arts).1 (buildTexts arts).2) = Except.ok t →
        summaryForGroup oracle source arts = stripStr t) ∧
    ("No article content available." ≠ "" ∧ "AI summary unavailable." ≠ "") := by
  refine ⟨?_, ?_, ?_, ?_, by decide, by decide⟩
  · exact List.mem_map_of_mem _ hmem
  · intro h oracle2
    unfold summaryForGroup
    rw [if_pos (buildTexts_no_content arts h)]
  · intro hne' e heq
    unfold summaryForGroup
    rw [if_neg hne', heq]
  · intro hne' t heq
    unfold summaryForGroup
    rw [if_neg hne', heq]

/-- Witness for C7 amended: a failing collaborator on a one-article
group with content still yields a mapping entry. -/
theorem C7_summary_entries_witness :
    (("Tech", [artWithContent]) ∈ groupsOne ∧ [artWithContent] ≠ []) ∧
    ("Tech", summaryForGroup (fun _ _ => Except.error ()) "Tech" [artWithContent])
      ∈ generate_ai_summary (fun _ _ => Except.error ()) groupsOne :=
  ⟨⟨by decide, by decide⟩,
   (C7_summary_entries (fun _ _ => Except.error ()) groupsOne "Tech" [artWithContent]
      (by decide) (by decide)).1⟩

/-! ## Digest-composer helper lemmas -/

theorem countBullets_append (l1 l2 : List Block) :
    countBullets (l1 ++ l2) = countBullets l1 + countBullets l2 := by
  simp [countBullets, List.filter_append]

theorem countBullets_cons_nonbullet (b : Block) (l : List Block)
    (h : isBullet b = false) : countBullets (b :: l) = countBullets l := by
  simp [countBullets, List.filter_cons, h]

theorem countBullets_le_length (l : List Block) : countBullets l ≤ l.length := by
  unfold countBullets
  exact List.length_filter_le _ _

theorem countBullets_summaryParagraphBlocks (s : String) :
    countBullets (summaryParagraphBlocks s) = 0 := by
  unfold countBullets
  rw [List.length_eq_zero, List.filter_eq_nil_iff]
  intro b hb
  unfold summaryParagraphBlocks at hb
  obtain ⟨para, _, hb2⟩ := List.mem_flatMap.mp hb
  obtain ⟨t, _, hb3⟩ := List.mem_map.mp hb2
  rw [← hb3]
  simp [isBullet]

theorem countBullets_aiLinkBlocks (arts : List DigestArticle) :
    countBullets (aiLinkBlocks arts) ≤ AI_MAX_ARTICLES_PER_SOURCE := by
  unfold aiLinkBlocks
  by_cases h : arts = []
  · rw [if_pos h]
    decide
  · rw [if_neg h]
    rw [countBullets_cons_nonbullet (Block.paragraph "\n📎 Read the full articles:") _ rfl]
    calc countBullets ((arts.take AI_MAX_ARTICLES_PER_SOURCE).map
            (fun a => Block.bullet a.title (some a.url)))
        ≤ ((arts.take AI_MAX_ARTICLES_PER_SOURCE).map
            (fun a => Block.bullet a.title (some a.url))).length :=
          countBullets_le_length _
      _ = (arts.take AI_MAX_ARTICLES_PER_SOURCE).length := List.length_map _ _
      _ ≤ AI_MAX_ARTICLES_PER_SOURCE := List.length_take_le _ _

theorem countBullets_aiSourceSection (ai_summaries : List (String × String))
    (g : String × List DigestArticle) :
    countBullets (aiSourceSection ai_summaries g) ≤ AI_MAX_ARTICLES_PER_SOURCE := by
  unfold aiSourceSection
  by_cases h : (SKIP_EMPTY_SOURCES && g.2.length == 0) = true
  · rw [if_pos h]
    decide
  · rw [if_neg h]
    rw [countBullets_cons_nonbullet (Block.heading2 (emojiFor g.1 ++ " " ++ g.1)) _ rfl]
    rw [countBullets_append, countBullets_append]
    have hsum : countBullets
        (match ai_summaries.lookup g.1 with
         | some summary => summaryParagraphBlocks summary
         | none => []) = 0 := by
      cases ai_summaries.lookup g.1 with
      | none => rfl
      | some s => exact countBullets_summaryParagraphBlocks s
    rw [hsum]
    have hlink := countBullets_aiLinkBlocks g.2
    have hdiv : countBullets [Block.divider] = 0 := rfl
    rw [hdiv]
    omega

theorem countBullets_ndSourceSection (g : String × List NDArticle) :
    countBullets (ndSourceSection g) ≤ AI_MAX_ARTICLES_PER_SOURCE := by
  unfold ndSourceSection
  by_cases h : (SKIP_EMPTY_SOURCES && g.2.length == 0) = true
  · rw [if_pos h]
    decide
  · rw [if_neg h]
    rw [countBullets_cons_nonbullet
      (Block.heading2 (emojiFor g.1 ++ " " ++ g.1 ++ " ("
        ++ toString g.2.length ++ " articles)")) _ rfl]
    calc countBullets ((g.2.take AI_MAX_ARTICLES_PER_SOURCE).map
            (fun a => Block.bullet a.title (if a.url ≠ "" then some a.url else none)))
        ≤ ((g.2.take AI_MAX_ARTICLES_PER_SOURCE).map
            (fun a => Block.bullet a.title (if a.url ≠ "" then some a.url else none))).length :=
          countBullets_le_length _
      _ = (g.2.take AI_MAX_ARTICLES_PER_SOURCE).length := List.length_map _ _
      _ ≤ AI_MAX_ARTICLES_PER_SOURCE := List.length_take_le _ _

/-- C8: in both composed digests the per-source cap acts only at render
time — the total statistic and every per-source count line carry the
full (un-truncated) group sizes, while each source section renders at
most the per-source maximum (10) bulleted article links. -/
theorem C8_render_time_cap (by_source : List (String × List DigestArticle))
    (ai_summaries : List (String × String)) (hot : List (List Char))
    (today : String) (nd_by_source : List (String × List NDArticle))
    (g : String × List DigestArticle) (hg : g ∈ by_source)
    (gn : String × List NDArticle) (hgn : gn ∈ nd_by_source) :
    Block.paragraph ("Total Articles: " ++ toString (totalCount by_source))
      ∈ ai_create_digest_page by_source ai_summaries hot ∧
    Block.paragraph (emojiFor g.1 ++ " " ++ g.1 ++ ": " ++ toString g.2.length
        ++ " articles")
      ∈ ai_create_digest_page by_source ai_summaries hot ∧
    countBullets (aiSourceSection ai_summaries g) ≤ AI_MAX_ARTICLES_PER_SOURCE ∧
    Block.paragraph (ndStatsText nd_by_source)
      ∈ nd_create_digest_page today nd_by_source ∧
    (gn.2 ≠ [] →
      Block.heading2 (emojiFor gn.1 ++ " " ++ gn.1 ++ " ("
          ++ toString gn.2.length ++ " articles)")
        ∈ nd_create_digest_page today nd_by_source) ∧
    countBullets (ndSourceSection gn) ≤ AI_MAX_ARTICLES_PER_SOURCE := by
  refine ⟨?_, ?_, countBullets_aiSourceSection ai_summaries g, ?_, ?_,
    countBullets_ndSourceSection gn⟩
  · unfold ai_create_digest_page aiStatsBlocks
    exact List.mem_append_left _ (List.mem_append_left _ (List.mem_append_right _
      (List.mem_cons_of_mem _ (List.mem_cons_self _ _))))
  · unfold ai_create_digest_page aiStatsBlocks
    exact List.mem_append_left _ (List.mem_append_left _ (List.mem_append_right _
      (List.mem_cons_of_mem _ (List.mem_cons_of_mem _ (List.mem_map_of_mem _ hg)))))
  · unfold nd_create_digest_page
    exact List.mem_append_left _ (List.mem_append_left _ (List.mem_append_right _
      (List.mem_singleton_self _)))
  · intro hne
    unfold nd_create_digest_page
    apply List.mem_append_right
    apply List.mem_flatMap.mpr
    refine ⟨gn, hgn, ?_⟩
    unfold ndSourceSection
    rw [if_neg ?_]
    · exact List.mem_cons_self _ _
    · intro hcond
      rw [Bool.and_eq_true, beq_iff_eq, List.length_eq_zero] at hcond
      exact hne hcond.2

/-- Witness for C8 at a concrete one-article group per digest. -/
theorem C8_render_time_cap_witness :
    (("Tech", [artWithContent]) ∈ groupsOne ∧
      (("Tech", [({ title := "t", url := "", date := "" } : NDArticle)])
        ∈ [("Tech", [({ title := "t", url := "", date := "" } : NDArticle)])])) ∧
    countBullets (aiSourceSection [] ("Tech", [artWithContent]))
      ≤ AI_MAX_ARTICLES_PER_SOURCE :=
  ⟨⟨by decide, by decide⟩,
   (C8_render_time_cap groupsOne [] [] "today"
      [("Tech", [({ title := "t", url := "", date := "" } : NDArticle)])]
      ("Tech", [artWithContent]) (by decide)
      ("Tech", [({ title := "t", url := "", date := "" } : NDArticle)])
      (by decide)).2.2.1⟩

end NewsScraper
